import Mathlib

/-!
Shallow embedding of `src/bedrock/src/telemetry/mod.rs` (ambient telemetry-context
propagation) and verification of its specification.

Handles (`SharedLog`, `SharedSpan`) are modelled as indices into heaps kept in a
`World`; the per-execution-context ambient slot (current log / current span /
current test tracer) is a field of the `World`.  All operations are modelled for a
build with every feature (logging, tracing, testing) enabled, matching the spec's
full data model.  The `scope`, `log` and `tracing` submodules referenced by
`mod.rs` are not among the sources; their operations are modelled from the spec
and are marked `Modelled from the spec:` in their doc comments.
-/

namespace Telemetry

/-- A log-sink handle: an index into `World.sinks`. -/
abbrev SharedLog := Nat

/-- A span handle: an index into `World.spans`. -/
abbrev SharedSpan := Nat

/-- A (test) tracer, opaque to this component; only identity matters. -/
abbrev Tracer := Nat

/-- Modelled from the spec: the mutable payload of a log sink — the structured
key/value annotations attached to the handle so far (the log module is not among
the sources). -/
structure Sink where
  fields : List (String × String)
deriving DecidableEq, Repr, Inhabited

/-- Modelled from the spec: a span object — a name and an optional parent link
(the tracing module is not among the sources). -/
structure SpanData where
  name : String
  parent : Option SharedSpan
deriving DecidableEq, Repr, Inhabited

/-- The per-execution-context ambient slot: current log, current span, current
test tracer. -/
structure Ambient where
  log : SharedLog
  span : Option SharedSpan
  testTracer : Option Tracer
deriving DecidableEq, Repr, Inhabited

/-- The full state visible to one execution context: its ambient slot plus the
heaps backing the shared log and span handles. -/
structure World where
  ambient : Ambient
  sinks : List Sink
  spans : List SpanData
deriving DecidableEq, Repr, Inhabited

/-- Modelled from the spec: `log::internal::current_log` — reads the ambient
slot's current log handle. -/
def current_log (w : World) : SharedLog :=
  w.ambient.log

/-- Modelled from the spec: `tracing::internal::current_span` — reads the
ambient slot's current span handle (`none` when no span is active). -/
def current_span (w : World) : Option SharedSpan :=
  w.ambient.span

/-- Modelled from the spec: `tracing::testing::current_test_tracer` — reads the
ambient slot's current test tracer (`none` outside a test scope). -/
def current_test_tracer (w : World) : Option Tracer :=
  w.ambient.testTracer

/-- Modelled from the spec: `log::internal::LogScope` — a scope guard owning the
log handle that was ambient before the scope began. -/
structure LogScope where
  prev : SharedLog
deriving DecidableEq, Repr

/-- Modelled from the spec: `LogScope::new(log)` installs `log` into the ambient
slot and returns a guard capturing the previous ambient log. -/
def LogScope.new (log : SharedLog) (w : World) : LogScope × World :=
  (⟨w.ambient.log⟩, { w with ambient := { w.ambient with log := log } })

/-- Modelled from the spec: releasing a `LogScope` restores the saved previous
ambient log exactly. -/
def LogScope.release (g : LogScope) (w : World) : World :=
  { w with ambient := { w.ambient with log := g.prev } }

/-- Modelled from the spec: `tracing::internal::SpanScope` — a scope guard owning
the span slot contents that were ambient before the scope began. -/
structure SpanScope where
  prev : Option SharedSpan
deriving DecidableEq, Repr

/-- Modelled from the spec: `SpanScope::new(span)` installs `span` as the ambient
span and returns a guard capturing the previous ambient span. -/
def SpanScope.new (span : SharedSpan) (w : World) : SpanScope × World :=
  (⟨w.ambient.span⟩, { w with ambient := { w.ambient with span := some span } })

/-- Modelled from the spec: releasing a `SpanScope` restores the saved previous
ambient span exactly. -/
def SpanScope.release (g : SpanScope) (w : World) : World :=
  { w with ambient := { w.ambient with span := g.prev } }

/-- Modelled from the spec: `tracing::testing::TestTracerScope` — a scope guard
owning the test-tracer slot contents that were ambient before the scope began. -/
structure TestTracerScope where
  prev : Option Tracer
deriving DecidableEq, Repr

/-- Modelled from the spec: `TestTracerScope::new(tracer)` installs `tracer` as
the ambient test tracer and returns a guard capturing the previous one. -/
def TestTracerScope.new (tracer : Tracer) (w : World) : TestTracerScope × World :=
  (⟨w.ambient.testTracer⟩,
    { w with ambient := { w.ambient with testTracer := some tracer } })

/-- Modelled from the spec: releasing a `TestTracerScope` restores the saved
previous ambient test tracer exactly. -/
def TestTracerScope.release (g : TestTracerScope) (w : World) : World :=
  { w with ambient := { w.ambient with testTracer := g.prev } }

/-- `TelemetryScope` (`mod.rs` lines 63-75): the bundle of guards returned by
`TelemetryContext::scope` — an unconditional log guard, and span / test-tracer
guards only when the corresponding context component is present. -/
structure TelemetryScope where
  _log_scope : LogScope
  _span_scope : Option SpanScope
  _test_tracer_scope : Option TestTracerScope
deriving DecidableEq, Repr

/-- Dropping a `TelemetryScope` drops its guards (fields in declaration order);
each restores its own sub-slot of the ambient state. -/
def TelemetryScope.release (ts : TelemetryScope) (w : World) : World :=
  let w1 := ts._log_scope.release w
  let w2 := match ts._span_scope with
    | some g => g.release w1
    | none => w1
  match ts._test_tracer_scope with
    | some g => g.release w2
    | none => w2

/-- `TelemetryContext` (`mod.rs` lines 79-89): the immutable snapshot of the
ambient state — a log handle, an optional span handle, an optional test tracer. -/
structure TelemetryContext where
  log : SharedLog
  span : Option SharedSpan
  test_tracer : Option Tracer
deriving DecidableEq, Repr, Inhabited

/-- `TelemetryContext::current` (`mod.rs` lines 93-104): snapshot of the ambient
slot at call time. -/
def TelemetryContext.current (w : World) : TelemetryContext :=
  { log := current_log w
    span := current_span w
    test_tracer := current_test_tracer w }

/-- `TelemetryContext::scope` (`mod.rs` lines 107-118): installs this context's
log unconditionally, and its span / test tracer only when present (in the Rust,
`self.span.as_ref().cloned().map(SpanScope::new)`), returning the guard bundle. -/
def TelemetryContext.scope (c : TelemetryContext) (w : World) : TelemetryScope × World :=
  let lg := LogScope.new c.log w
  let sg : Option SpanScope × World := match c.span with
    | some s =>
      let g := SpanScope.new s lg.2
      (some g.1, g.2)
    | none => (none, lg.2)
  let tg : Option TestTracerScope × World := match c.test_tracer with
    | some t =>
      let g := TestTracerScope.new t sg.2
      (some g.1, g.2)
    | none => (none, sg.2)
  (⟨lg.1, sg.1, tg.1⟩, tg.2)

/-- A unit of suspendable work with internal state `σ`: each resumption observes
the ambient state and either suspends (`none`) or completes with a value
(`some t`).  This models the inner `Future` that the wrapper delegates to. -/
structure FutureSM (σ : Type) (T : Type) where
  state : σ
  step : σ → Ambient → σ × Option T

/-- `WithTelemetryContext` (`mod.rs` lines 43-49): wrapper owning the inner unit
of work and the context snapshot. -/
structure WithTelemetryContext (σ : Type) (T : Type) where
  inner : FutureSM σ T
  ctx : TelemetryContext

/-- `<WithTelemetryContext as Future>::poll` (`mod.rs` lines 54-58): installs the
snapshot via `scope`, delegates one resumption step to the inner unit, and drops
the guard bundle before returning.  Returns the advanced wrapper, the resulting
world, and the inner step's output. -/
def WithTelemetryContext.poll (wr : WithTelemetryContext σ T) (w : World) :
    WithTelemetryContext σ T × World × Option T :=
  let sc := wr.ctx.scope w
  let stepped := wr.inner.step wr.inner.state sc.2.ambient
  let w2 := sc.1.release sc.2
  (⟨{ wr.inner with state := stepped.1 }, wr.ctx⟩, w2, stepped.2)

/-- `WithTelemetryContext` has no `Drop` implementation: dropping it drops the
inner unit and the snapshot (plain fields) and performs no world effect. -/
def WithTelemetryContext.drop (_ : WithTelemetryContext σ T) (w : World) : World :=
  w

/-- `TelemetryContext::apply` (`mod.rs` lines 127-135): constructs the wrapper
from the inner unit and this snapshot; it performs no ambient-state effect, so
the world is threaded through unchanged. -/
def TelemetryContext.apply (c : TelemetryContext) (fut : FutureSM σ T) (w : World) :
    WithTelemetryContext σ T × World :=
  (⟨fut, c⟩, w)

/-- Modelled from the spec: `tracing::internal::create_span(name)` (the tracing
module is not among the sources) — allocates a new span whose parent is the
current ambient span when one exists, and a root span otherwise. -/
def create_span (name : String) (w : World) : SharedSpan × World :=
  (w.spans.length, { w with spans := w.spans ++ [⟨name, w.ambient.span⟩] })

/-- `TelemetryContext::apply_with_tracing_span` (`mod.rs` lines 146-158): briefly
re-installs this context's span (when present) so child creation observes the
correct parent, creates the new span, stores it into the context, applies, and
drops the temporary scope before returning. -/
def TelemetryContext.apply_with_tracing_span (c : TelemetryContext) (_span_name : String)
    (fut : FutureSM σ T) (w : World) : WithTelemetryContext σ T × World :=
  let sc : Option SpanScope × World := match c.span with
    | some s =>
      let g := SpanScope.new s w
      (some g.1, g.2)
    | none => (none, w)
  let created := create_span _span_name sc.2
  let c' := { c with span := some created.1 }
  let applied := c'.apply fut created.2
  let w4 := match sc.1 with
    | some g => g.release applied.2
    | none => applied.2
  (applied.1, w4)

/-- Modelled from the spec: `log::internal::fork_log` (the log module is not
among the sources) — derives an independent handle with the same initial
configuration (current contents) as the existing one; later mutations through
either handle are invisible through the other. -/
def fork_log (l : SharedLog) (w : World) : SharedLog × World :=
  (w.sinks.length, { w with sinks := w.sinks ++ [w.sinks.getD l default] })

/-- `TelemetryContext::with_forked_log` (`mod.rs` lines 164-174): a new context
whose log handle is a fork, sharing the span and test-tracer references. -/
def TelemetryContext.with_forked_log (c : TelemetryContext) (w : World) :
    TelemetryContext × World :=
  let forked := fork_log c.log w
  ({ log := forked.1, span := c.span, test_tracer := c.test_tracer }, forked.2)

/-- Modelled from the spec: attaching a structured key/value annotation through a
log handle mutates only the sink that handle designates. -/
def log_write (l : SharedLog) (k v : String) (w : World) : World :=
  { w with sinks := w.sinks.set l ⟨(w.sinks.getD l default).fields ++ [(k, v)]⟩ }

/-- The annotations currently attached to the sink a log handle designates. -/
def log_fields (l : SharedLog) (w : World) : List (String × String) :=
  (w.sinks.getD l default).fields

/-- Iterates `poll` on a wrapper `n` times, threading the world. -/
def runPolls : Nat → WithTelemetryContext σ T → World → WithTelemetryContext σ T × World
  | 0, wr, w => (wr, w)
  | n + 1, wr, w => runPolls n (wr.poll w).1 (wr.poll w).2.1

/-- The ambient state the inner unit observes during one `poll` of the wrapper:
the world after the wrapper's `scope` install (definitionally what `poll` passes
to the inner step). -/
def observedAmbient (wr : WithTelemetryContext σ T) (w : World) : Ambient :=
  ((wr.ctx.scope w).2).ambient

/-- The ambient state a context snapshot denotes, read as a slot value. -/
def ambientOfContext (c : TelemetryContext) : Ambient :=
  { log := c.log, span := c.span, testTracer := c.test_tracer }

/-- A context overlaid on a pre-existing ambient state: the context's log always,
its span and test tracer where present, the pre-existing values where absent. -/
def overlayAmbient (c : TelemetryContext) (a : Ambient) : Ambient :=
  { log := c.log
    span := match c.span with
      | some s => some s
      | none => a.span
    testTracer := match c.test_tracer with
      | some t => some t
      | none => a.testTracer }

/-- Runs an alternation of polls of two wrappers on one thread (`true` polls the
first, `false` the second), recording the ambient state observed by the polled
wrapper's inner unit at each step. -/
def altObservations : WithTelemetryContext σa Ta → WithTelemetryContext σb Tb →
    World → List Bool → List Ambient
  | _, _, _, [] => []
  | A, B, w, true :: rest =>
    observedAmbient A w :: altObservations (A.poll w).1 B ((A.poll w).2.1) rest
  | A, B, w, false :: rest =>
    observedAmbient B w :: altObservations A (B.poll w).1 ((B.poll w).2.1) rest

/-- Bootstrap error, opaque: only propagation matters. -/
abbrev Err := String

/-- Counts how many times each initializer has been invoked. -/
structure InitTrace where
  logCalls : Nat
  tracerCalls : Nat
deriving DecidableEq, Repr

/-- Modelled from the spec: the log-sink initializer (`log::init::init`, not
among the sources) — invoking it records the call and yields its outcome. -/
def runLogInit (res : Except Err Unit) (t : InitTrace) : Except Err Unit × InitTrace :=
  (res, { t with logCalls := t.logCalls + 1 })

/-- Modelled from the spec: the tracer initializer (`tracing::init::init`, not
among the sources) — invoking it records the call and yields its outcome. -/
def runTracerInit (res : Except Err Unit) (t : InitTrace) : Except Err Unit × InitTrace :=
  (res, { t with tracerCalls := t.tracerCalls + 1 })

/-- `init` (`mod.rs` lines 183-191): runs the log-sink initializer, propagating
failure with `?`; then the tracer initializer, propagating failure with `?`;
then returns `Ok(())`.  Parametrised by the outcome each initializer would
produce, and threading the invocation trace. -/
def init (logRes tracerRes : Except Err Unit) (t : InitTrace) :
    Except Err Unit × InitTrace :=
  let r1 := runLogInit logRes t
  match r1.1 with
  | .error e => (.error e, r1.2)
  | .ok _ =>
    let r2 := runTracerInit tracerRes r1.2
    match r2.1 with
    | .error e => (.error e, r2.2)
    | .ok _ => (.ok (), r2.2)

/-! Concrete fixtures used by counterexamples and witnesses. -/

/-- A trivial unit of work that completes on its first resumption. -/
def unitFut : FutureSM Unit Unit :=
  ⟨(), fun s _ => (s, some ())⟩

/-- A unit of work that records every ambient state it observes and never
completes. -/
def recorderFut : FutureSM (List Ambient) Unit :=
  ⟨[], fun s a => (a :: s, none)⟩

/-- A base world: ambient log `1`, an active ambient span `0`, an active test
tracer `5`; two sinks and one root span allocated. -/
def w0 : World :=
  ⟨⟨1, some 0, some 5⟩, [⟨[]⟩, ⟨[("base", "yes")]⟩], [⟨"root", none⟩]⟩

/-- A context with no span and no test tracer. -/
def c0 : TelemetryContext :=
  ⟨0, none, none⟩

/-- A context with all three components present. -/
def cFull : TelemetryContext :=
  ⟨0, some 0, some 5⟩

/-- A mixed context: span present, test tracer absent. -/
def cMixed : TelemetryContext :=
  ⟨0, some 0, none⟩

/-! Helper lemmas about scope install/release and `poll`. -/

/-- Releasing the guard bundle returned by `scope` restores the whole prior
world exactly. -/
theorem scope_release (c : TelemetryContext) (w : World) :
    TelemetryScope.release (c.scope w).1 (c.scope w).2 = w := by
  obtain ⟨cl, cs, ct⟩ := c
  cases cs <;> cases ct <;> rfl

/-- One `poll` of a wrapper returns the world it was given: the scope installed
at entry is fully released before `poll` returns. -/
theorem poll_world (wr : WithTelemetryContext σ T) (w : World) :
    (wr.poll w).2.1 = w :=
  scope_release wr.ctx w

/-- `poll` never changes the context snapshot carried by the wrapper. -/
theorem poll_ctx (wr : WithTelemetryContext σ T) (w : World) :
    ((wr.poll w).1).ctx = wr.ctx :=
  rfl

/-- The ambient state the inner unit observes during a poll is the wrapper's
context overlaid on the pre-poll ambient state. -/
theorem observedAmbient_eq (wr : WithTelemetryContext σ T) (w : World) :
    observedAmbient wr w = overlayAmbient wr.ctx w.ambient := by
  obtain ⟨inner, ⟨cl, cs, ct⟩⟩ := wr
  cases cs <;> cases ct <;> rfl

/-- Iterated polls return the world unchanged. -/
theorem runPolls_world (n : Nat) (wr : WithTelemetryContext σ T) (w : World) :
    (runPolls n wr w).2 = w := by
  induction n generalizing wr w with
  | zero => rfl
  | succ n ih =>
    rw [runPolls, poll_world]
    exact ih _ _

/-- In any alternation, each step's observation is the polled wrapper's context
overlaid on the base ambient state, independently of the interleaving. -/
theorem altObservations_eq (A : WithTelemetryContext σa Ta)
    (B : WithTelemetryContext σb Tb) (w : World) (l : List Bool) :
    altObservations A B w l
      = l.map (fun s =>
          if s then overlayAmbient A.ctx w.ambient else overlayAmbient B.ctx w.ambient) := by
  induction l generalizing A B with
  | nil => rfl
  | cons s rest ih =>
    cases s <;>
      simp [altObservations, observedAmbient_eq, poll_world, poll_ctx, ih]

/-- Reading a freshly appended element of a heap. -/
theorem getD_concat_length (l : List α) (a d : α) :
    (l ++ [a]).getD l.length d = a := by
  simp [List.getD_append_right]

/-- Appending to a heap does not change reads below the old length. -/
theorem getD_append_lt (l : List α) (a d : α) (n : Nat) (h : n < l.length) :
    (l ++ [a]).getD n d = l.getD n d := by
  simp [List.getD, List.getElem?_append, h]

/-- Writing one heap cell does not change reads of a different cell. -/
theorem getD_set_ne (l : List α) (x d : α) (i j : Nat) (h : i ≠ j) :
    (l.set i x).getD j d = l.getD j d := by
  simp [List.getD, List.getElem?_set_ne h]

/-! Claim theorems. -/

/-- C1 (counterexample): with `Ca = c0` (whose span and test tracer are absent)
and a base world `w0` whose ambient span and test tracer are present, already
the first poll of `A = Ca.apply(W)` in an alternation observes an ambient state
different from the snapshot `Ca`: the base span `0` and tracer `5` remain
visible, so the observation is not `Ca`. -/
theorem poll_observes_snapshot_counterexample :
    altObservations ((c0.apply unitFut w0).1) ((cFull.apply unitFut w0).1) w0 [true]
        ≠ [ambientOfContext c0]
      ∧ c0.span = none ∧ w0.ambient.span = some 0 := by
  decide

/-- C1 (amended): in any alternation of polls of `A = Ca.apply(WA)` and
`B = Cb.apply(WB)` on one thread, every poll of `A`'s inner unit observes
exactly `Ca` overlaid on the base ambient state — `Ca`'s log always, `Ca`'s
span and test tracer whenever present in `Ca`, and the base thread's values for
the components `Ca` leaves absent — and symmetrically for `B`, regardless of
interleaving order. -/
theorem poll_isolation (Ca Cb : TelemetryContext) (futA : FutureSM σa Ta)
    (futB : FutureSM σb Tb) (w : World) (l : List Bool) :
    altObservations ((Ca.apply futA w).1) ((Cb.apply futB w).1) w l
      = l.map (fun s =>
          if s then overlayAmbient Ca w.ambient else overlayAmbient Cb w.ambient) :=
  altObservations_eq _ _ w l

/-- C2: the restoration round-trip law.  For every context `c`, unit of work
`fut` and world `w`, after any number of polls of `c.apply fut` (hence in
particular after the final, completing poll) the ambient state equals the
ambient state before `apply` was invoked: each poll installs the snapshot via
`scope` and releases the guard bundle before returning. -/
theorem apply_restoration (c : TelemetryContext) (fut : FutureSM σ T) (w : World)
    (n : Nat) :
    ((runPolls n ((c.apply fut w).1) ((c.apply fut w).2)).2).ambient = w.ambient := by
  rw [show (c.apply fut w).2 = w from rfl, runPolls_world]

/-- C3 (counterexample): for the context `c0` (span and test tracer absent) and
the world `w0` (ambient span and test tracer present), a snapshot taken while
`c0.scope`'s guard bundle is held does not equal `c0`: the prior ambient span
and tracer remain visible. -/
theorem scope_snapshot_counterexample :
    TelemetryContext.current ((c0.scope w0).2) ≠ c0 := by
  decide

/-- C3 (amended): for every context `c` and world `w`, `scope` installs `c`'s
log unconditionally and `c`'s span and test tracer when present; components
absent in `c` remain at their prior ambient values, so a snapshot taken via
`current` while the guard bundle is held equals `c` exactly whenever `c`'s span
and test tracer are both present; and releasing the bundle always restores the
prior world exactly. -/
theorem scope_install_restore (c : TelemetryContext) (w : World) :
    (TelemetryContext.current ((c.scope w).2)).log = c.log
      ∧ (∀ s, c.span = some s →
          (TelemetryContext.current ((c.scope w).2)).span = some s)
      ∧ (∀ t, c.test_tracer = some t →
          (TelemetryContext.current ((c.scope w).2)).test_tracer = some t)
      ∧ (c.span = none →
          (TelemetryContext.current ((c.scope w).2)).span = w.ambient.span)
      ∧ (c.test_tracer = none →
          (TelemetryContext.current ((c.scope w).2)).test_tracer = w.ambient.testTracer)
      ∧ (c.span.isSome = true → c.test_tracer.isSome = true →
          TelemetryContext.current ((c.scope w).2) = c)
      ∧ TelemetryScope.release (c.scope w).1 ((c.scope w).2) = w := by
  obtain ⟨cl, cs, ct⟩ := c
  cases cs <;> cases ct <;>
    simp [TelemetryContext.scope, TelemetryContext.current, current_log, current_span,
      current_test_tracer, LogScope.new, SpanScope.new, TestTracerScope.new,
      TelemetryScope.release, LogScope.release, SpanScope.release,
      TestTracerScope.release]

/-- C3 (witness): the amended theorem evaluated at `cFull` (all components
present) and `w0`: the held snapshot equals `cFull` and release restores `w0`. -/
theorem scope_install_restore_witness :
    TelemetryContext.current ((cFull.scope w0).2) = cFull
      ∧ TelemetryScope.release (cFull.scope w0).1 ((cFull.scope w0).2) = w0 :=
  ⟨(scope_install_restore cFull w0).2.2.2.2.2.1 (by decide) (by decide),
    (scope_install_restore cFull w0).2.2.2.2.2.2⟩

/-- C4 (counterexample): `c0`'s span is absent, yet calling
`c0.apply_with_tracing_span "x" W` in world `w0` (whose ambient span is `0`)
produces a new span (handle `1`) whose parent is span `0` — not a root. -/
theorem span_nesting_counterexample :
    c0.span = none
      ∧ ((c0.apply_with_tracing_span "x" unitFut w0).1).ctx.span = some 1
      ∧ (((c0.apply_with_tracing_span "x" unitFut w0).2).spans.getD 1 default).parent
          = some 0 := by
  decide

/-- C4 (amended): `c.apply_with_tracing_span name fut` creates one new span
(the next heap handle) carrying `name`; its parent is `c`'s span when present
(determined at call time via the temporary scope re-installing `c`'s prior
span), and otherwise the ambient span current at call time — a root exactly
when that too is absent; the new span is stored into the context used for
`apply`, so every subsequent resumption of the wrapped unit observes it as the
ambient span. -/
theorem span_nesting (c : TelemetryContext) (name : String) (fut : FutureSM σ T)
    (w : World) :
    ((c.apply_with_tracing_span name fut w).1).ctx.span = some w.spans.length
      ∧ (((c.apply_with_tracing_span name fut w).2).spans.getD w.spans.length default).name
          = name
      ∧ (((c.apply_with_tracing_span name fut w).2).spans.getD w.spans.length default).parent
          = (match c.span with
              | some s => some s
              | none => w.ambient.span)
      ∧ ∀ w2 : World,
          (observedAmbient ((c.apply_with_tracing_span name fut w).1) w2).span
            = some w.spans.length := by
  obtain ⟨cl, cs, ct⟩ := c
  cases cs with
  | none =>
    refine ⟨rfl, ?_, ?_, ?_⟩
    · simp [TelemetryContext.apply_with_tracing_span, create_span,
        TelemetryContext.apply, getD_concat_length]
    · simp [TelemetryContext.apply_with_tracing_span, create_span,
        TelemetryContext.apply, getD_concat_length]
    · intro w2
      cases ct <;> rfl
  | some s =>
    refine ⟨rfl, ?_, ?_, ?_⟩
    · simp [TelemetryContext.apply_with_tracing_span, create_span,
        TelemetryContext.apply, SpanScope.new, SpanScope.release, getD_concat_length]
    · simp [TelemetryContext.apply_with_tracing_span, create_span,
        TelemetryContext.apply, SpanScope.new, SpanScope.release, getD_concat_length]
    · intro w2
      cases ct <;> rfl

/-- C5: `with_forked_log` returns a context sharing the span and test-tracer
references unchanged, whose log handle is a distinct fork starting from the
same contents as `c`'s log; later mutations through either handle are invisible
through the other. -/
theorem with_forked_log_spec (c : TelemetryContext) (w : World)
    (h : c.log < w.sinks.length) :
    ((c.with_forked_log w).1).span = c.span
      ∧ ((c.with_forked_log w).1).test_tracer = c.test_tracer
      ∧ ((c.with_forked_log w).1).log ≠ c.log
      ∧ log_fields ((c.with_forked_log w).1).log ((c.with_forked_log w).2)
          = log_fields c.log w
      ∧ (∀ k v, log_fields c.log
            (log_write ((c.with_forked_log w).1).log k v ((c.with_forked_log w).2))
          = log_fields c.log ((c.with_forked_log w).2))
      ∧ (∀ k v, log_fields ((c.with_forked_log w).1).log
            (log_write c.log k v ((c.with_forked_log w).2))
          = log_fields ((c.with_forked_log w).1).log ((c.with_forked_log w).2)) := by
  have hne : w.sinks.length ≠ c.log := Ne.symm (Nat.ne_of_lt h)
  refine ⟨rfl, rfl, hne, ?_, ?_, ?_⟩
  · simp [log_fields, TelemetryContext.with_forked_log, fork_log, getD_concat_length]
  · intro k v
    simp only [log_fields, log_write, TelemetryContext.with_forked_log, fork_log]
    rw [getD_set_ne _ _ _ _ _ hne]
  · intro k v
    simp only [log_fields, log_write, TelemetryContext.with_forked_log, fork_log]
    rw [getD_set_ne _ _ _ _ _ (Ne.symm hne)]

/-- C5 (witness): the fork-independence theorem applied at `cFull` and `w0`. -/
theorem with_forked_log_witness :
    cFull.log < w0.sinks.length
      ∧ (((cFull.with_forked_log w0).1).span = cFull.span
          ∧ ((cFull.with_forked_log w0).1).test_tracer = cFull.test_tracer
          ∧ ((cFull.with_forked_log w0).1).log ≠ cFull.log
          ∧ log_fields ((cFull.with_forked_log w0).1).log ((cFull.with_forked_log w0).2)
              = log_fields cFull.log w0
          ∧ (∀ k v, log_fields cFull.log
                (log_write ((cFull.with_forked_log w0).1).log k v
                  ((cFull.with_forked_log w0).2))
              = log_fields cFull.log ((cFull.with_forked_log w0).2))
          ∧ (∀ k v, log_fields ((cFull.with_forked_log w0).1).log
                (log_write cFull.log k v ((cFull.with_forked_log w0).2))
              = log_fields ((cFull.with_forked_log w0).1).log
                  ((cFull.with_forked_log w0).2))) :=
  ⟨by decide, with_forked_log_spec cFull w0 (by decide)⟩

/-- C6: starting from a fresh invocation trace, `init` invokes each initializer
at most once, succeeds exactly when both initializers succeed, returns the
log-sink initializer's error without invoking the tracer initializer when the
former fails, and returns the tracer initializer's error when only it fails. -/
theorem init_spec (logRes tracerRes : Except Err Unit) :
    ((init logRes tracerRes ⟨0, 0⟩).2.logCalls ≤ 1
        ∧ (init logRes tracerRes ⟨0, 0⟩).2.tracerCalls ≤ 1)
      ∧ ((init logRes tracerRes ⟨0, 0⟩).1 = .ok ()
          ↔ logRes = .ok () ∧ tracerRes = .ok ())
      ∧ (∀ e, logRes = .error e →
          (init logRes tracerRes ⟨0, 0⟩).1 = .error e
            ∧ (init logRes tracerRes ⟨0, 0⟩).2.tracerCalls = 0)
      ∧ (∀ e, logRes = .ok () → tracerRes = .error e →
          (init logRes tracerRes ⟨0, 0⟩).1 = .error e) := by
  cases logRes <;> cases tracerRes <;>
    simp [init, runLogInit, runTracerInit]

/-- C6 (witness): a failing log-sink initializer propagates its error and the
tracer initializer is never invoked. -/
theorem init_spec_witness :
    (init (.error "boom") (.ok ()) ⟨0, 0⟩).1 = .error "boom"
      ∧ (init (.error "boom") (.ok ()) ⟨0, 0⟩).2.tracerCalls = 0 :=
  (init_spec (.error "boom") (.ok ())).2.2.1 "boom" rfl

/-- C7: steady-state infallibility, rendered operationally: on every input,
`current` yields a snapshot in which absence of a span or test tracer appears
as `none` (never an error); `scope` acquisition and release always succeed and
compose to the identity; `create_span` always succeeds, yielding a handle to an
allocated span; `apply_with_tracing_span` always produces a context carrying a
span; and `with_forked_log` always succeeds, yielding a valid fresh handle.
All these operations are total functions of the embedding with no error
outcome in their result types. -/
theorem steady_state_infallible (c : TelemetryContext) (w : World) (name : String)
    (fut : FutureSM σ T) :
    (TelemetryContext.current w).span = w.ambient.span
      ∧ (TelemetryContext.current w).test_tracer = w.ambient.testTracer
      ∧ TelemetryScope.release (c.scope w).1 ((c.scope w).2) = w
      ∧ (create_span name w).1 < ((create_span name w).2).spans.length
      ∧ ((c.apply_with_tracing_span name fut w).1).ctx.span.isSome = true
      ∧ ((c.with_forked_log w).1).log < ((c.with_forked_log w).2).sinks.length := by
  refine ⟨rfl, rfl, scope_release c w, ?_, ?_, ?_⟩
  · simp [create_span]
  · obtain ⟨cl, cs, ct⟩ := c
    cases cs <;> rfl
  · simp [TelemetryContext.with_forked_log, fork_log]

/-- C8: cancellation atomicity.  Dropping the wrapper at any point — after any
number of polls, i.e. including between resumptions — leaves the world exactly
as it was before `apply`: the drop itself installs and restores nothing, and no
restoration is pending, because every poll released its guard bundle before
returning. -/
theorem cancellation_atomic (c : TelemetryContext) (fut : FutureSM σ T) (w : World)
    (n : Nat) :
    WithTelemetryContext.drop ((runPolls n ((c.apply fut w).1) w).1)
        ((runPolls n ((c.apply fut w).1) w).2) = w := by
  rw [WithTelemetryContext.drop, runPolls_world]

/-- C9: for every context and world, the log component is installed
unconditionally; independently, when the context's span is absent `scope`
creates no span guard and the prior ambient span remains visible for the
duration of the scope, and likewise — whatever the span — when the test tracer
is absent no test-tracer guard is created and the prior ambient test tracer
remains visible. -/
theorem scope_absent_components (c : TelemetryContext) (w : World) :
    ((c.scope w).2).ambient.log = c.log
      ∧ (c.span = none →
          (c.scope w).1._span_scope = none
            ∧ ((c.scope w).2).ambient.span = w.ambient.span)
      ∧ (c.test_tracer = none →
          (c.scope w).1._test_tracer_scope = none
            ∧ ((c.scope w).2).ambient.testTracer = w.ambient.testTracer) := by
  obtain ⟨cl, cs, ct⟩ := c
  cases cs <;> cases ct <;>
    simp [TelemetryContext.scope, LogScope.new, SpanScope.new, TestTracerScope.new]

/-- C9 (witness): the absent-component theorem evaluated at the mixed context
`cMixed` (span present, test tracer absent) and at `c0` (both absent), in `w0`. -/
theorem scope_absent_components_witness :
    ((cMixed.scope w0).2).ambient.log = cMixed.log
      ∧ ((cMixed.scope w0).1._test_tracer_scope = none
          ∧ ((cMixed.scope w0).2).ambient.testTracer = w0.ambient.testTracer)
      ∧ ((c0.scope w0).1._span_scope = none
          ∧ ((c0.scope w0).2).ambient.span = w0.ambient.span) :=
  ⟨(scope_absent_components cMixed w0).1,
    (scope_absent_components cMixed w0).2.2 rfl,
    (scope_absent_components c0 w0).2.1 rfl⟩

/-- C10: constructing a wrapper leaves the ambient slot unchanged — `apply`
returns the world as given, and `apply_with_tracing_span` returns a world with
the same ambient state (its temporary parent-lookup span scope is released
before it returns; only the span heap has grown). -/
theorem construction_preserves_ambient (c : TelemetryContext) (name : String)
    (fut : FutureSM σ T) (w : World) :
    (c.apply fut w).2 = w
      ∧ ((c.apply_with_tracing_span name fut w).2).ambient = w.ambient := by
  refine ⟨rfl, ?_⟩
  obtain ⟨cl, cs, ct⟩ := c
  cases cs <;> rfl

end Telemetry
